import Mathlib

/-!
Shallow embedding of the jike-skill client (Python) in Lean 4.

Modelled files:
* `src/jike/types.py`  — `TokenPair`, `DEFAULT_HEADERS`, `API_BASE`
* `src/jike/client.py` — `JikeClient._headers`, `JikeClient._request`,
  `JikeClient._refresh`
* `src/jike/auth.py`   — `_extract_tokens`, `poll_confirmation`,
  `refresh_tokens`, `POLL_INTERVAL_SEC`, `POLL_TIMEOUT_SEC`
* `scripts/client.py`  — standalone `_refresh`

HTTP responses are modelled as a status code, a parsed-JSON body (an
association list of string fields; `content = false` models an empty
response body) and response headers (an association list).  Network
interaction is made explicit: each embedded operation receives the
response(s) the server would produce and returns, besides its result,
the trace of outgoing events (requests and refresh calls), so that
claims about "how many requests were issued" and "which token was
attached" are statements about the trace.
-/

namespace Jike

/-- Parsed JSON object, modelled as an association list of string fields.
`[]` is the empty object `{}`. -/
abbrev JsonBody := List (String × String)

/-- The `types.TokenPair` dataclass: a frozen dataclass of two string fields. -/
structure TokenPair where
  access_token : String
  refresh_token : String
deriving DecidableEq, Repr

/-- The table `types.DEFAULT_HEADERS` (keys and values from `src/jike/types.py`). -/
def DEFAULT_HEADERS : List (String × String) :=
  [ ("Origin", "https://web.okjike.com"),
    ("User-Agent",
      "Mozilla/5.0 (iPhone; CPU iPhone OS 18_5 like Mac OS X) AppleWebKit/605.1.15 (KHTML, like Gecko) Version/18.5 Mobile/15E148 Safari/604.1"),
    ("Accept", "application/json, text/plain, */*"),
    ("DNT", "1") ]

/-- An HTTP response as seen by the client: status code, whether the raw
body is non-empty (`resp.content`), the parsed JSON body, and the
response headers. -/
structure HttpResponse where
  status : Nat
  content : Bool
  json : JsonBody
  headers : List (String × String)
deriving DecidableEq, Repr

/-- Response header access `headers.get(k)`: first binding of the key. -/
def HttpResponse.getHeader (r : HttpResponse) (k : String) : Option String :=
  r.headers.lookup k

/-- The parsed body seen by `_request`: `resp.json() if resp.content else` the empty object. -/
def HttpResponse.parsed (r : HttpResponse) : JsonBody :=
  if r.content then r.json else []

/-- The `requests.HTTPError` exception, carrying the offending status code. -/
inductive HttpError where
  | status (code : Nat)
deriving DecidableEq, Repr

/-- Status predicate of `Response.raise_for_status`: it raises for 4xx and 5xx status codes. -/
def isErrorStatus (code : Nat) : Bool :=
  decide (400 ≤ code ∧ code < 600)

/-- The mutable state of a `JikeClient` instance: its token store. -/
structure ClientState where
  tokens : TokenPair
deriving DecidableEq, Repr

/-- Headers built by `JikeClient._headers`: default headers plus content type and the
current access token (`src/jike/client.py` lines 28-33). -/
def ClientState.headersOf (st : ClientState) : List (String × String) :=
  DEFAULT_HEADERS ++
    [ ("Content-Type", "application/json"),
      ("x-jike-access-token", st.tokens.access_token) ]

/-- Embedding of `JikeClient._refresh` (`src/jike/client.py` lines 49-67), given the
response of the refresh endpoint.  `raise_for_status` runs before the
assignment to `self._tokens`, so on an error status the state is
returned unchanged together with the raised error. -/
def JikeClient_refresh (st : ClientState) (resp : HttpResponse) :
    Except HttpError Unit × ClientState :=
  if isErrorStatus resp.status then
    (Except.error (HttpError.status resp.status), st)
  else
    (Except.ok (),
      { tokens :=
          { access_token :=
              (resp.getHeader "x-jike-access-token").getD st.tokens.access_token,
            refresh_token :=
              (resp.getHeader "x-jike-refresh-token").getD st.tokens.refresh_token } })

/-- Embedding of `auth.refresh_tokens` (`src/jike/auth.py` lines 111-127), given the
response of the refresh endpoint. -/
def refresh_tokens (token_pair : TokenPair) (resp : HttpResponse) :
    Except HttpError TokenPair :=
  if isErrorStatus resp.status then
    Except.error (HttpError.status resp.status)
  else
    Except.ok
      { access_token :=
          (resp.getHeader "x-jike-access-token").getD token_pair.access_token,
        refresh_token :=
          (resp.getHeader "x-jike-refresh-token").getD token_pair.refresh_token }

/-- Standalone `_refresh` from `scripts/client.py` lines 42-52: it only
receives the refresh token and defaults a missing access-token header
to the empty string. -/
def scripts_refresh (refresh_token : String) (resp : HttpResponse) :
    Except HttpError (String × String) :=
  if isErrorStatus resp.status then
    Except.error (HttpError.status resp.status)
  else
    Except.ok
      ((resp.getHeader "x-jike-access-token").getD "",
        (resp.getHeader "x-jike-refresh-token").getD refresh_token)

/-! ### The authenticated request executor (`JikeClient._request`) -/

/-- An outgoing network event of the client: a request to the original
endpoint (with the headers and body it was sent with) or a call to the
refresh endpoint (with the refresh token it carried). -/
inductive Event where
  | req (method path : String) (headers : List (String × String)) (body : JsonBody)
  | refreshCall (refresh_token : String)
deriving DecidableEq, Repr

/-- The server side of one `_request` call: the response to the n-th
request issued to the original endpoint (0-based), and the response of
the refresh endpoint. -/
structure Env where
  serve : Nat → HttpResponse
  refreshResp : HttpResponse

/-- The `retry_on_401=False` pass of `JikeClient._request`
(`src/jike/client.py` lines 35-47): issue the request with the current
access token, raise for any error status, else return the parsed body.
`n` is the index of this request in the server schedule. -/
def requestNoRetry (env : Env) (method path : String) (kwargs : JsonBody)
    (st : ClientState) (n : Nat) :
    Except HttpError JsonBody × ClientState × List Event :=
  let resp := env.serve n
  let tr := [Event.req method path st.headersOf kwargs]
  if isErrorStatus resp.status then
    (Except.error (HttpError.status resp.status), st, tr)
  else
    (Except.ok resp.parsed, st, tr)

/-- Embedding of `JikeClient._request` (`src/jike/client.py` lines 35-47) with the
given `retry_on_401` flag.  On a 401 first response with retry enabled
it calls `_refresh` (whose refresh POST is issued before its
`raise_for_status`, hence the refresh event is recorded even when the
refresh fails) and, when the refresh succeeds, reissues the original
request once with `retry_on_401=False`. -/
def JikeClient_request (env : Env) (method path : String) (kwargs : JsonBody)
    (retry_on_401 : Bool) (st : ClientState) :
    Except HttpError JsonBody × ClientState × List Event :=
  if retry_on_401 then
    let resp := env.serve 0
    let tr := [Event.req method path st.headersOf kwargs]
    if resp.status = 401 then
      let tr := tr ++ [Event.refreshCall st.tokens.refresh_token]
      match JikeClient_refresh st env.refreshResp with
      | (Except.error e, st') => (Except.error e, st', tr)
      | (Except.ok _, st') =>
          let out := requestNoRetry env method path kwargs st' 1
          (out.1, out.2.1, tr ++ out.2.2)
    else if isErrorStatus resp.status then
      (Except.error (HttpError.status resp.status), st, tr)
    else
      (Except.ok resp.parsed, st, tr)
  else
    requestNoRetry env method path kwargs st 0

/-- Number of requests to the original endpoint in a trace. -/
def countRequests (tr : List Event) : Nat :=
  tr.countP (fun e => match e with | Event.req _ _ _ _ => true | _ => false)

/-- Number of refresh calls in a trace. -/
def countRefreshCalls (tr : List Event) : Nat :=
  tr.countP (fun e => match e with | Event.refreshCall _ => true | _ => false)

/-! ### Token extraction and the QR confirmation poll loop (`auth.py`) -/

/-- Python `a or b` on optional strings: `None` and `""` are falsy. -/
def pyOr (a b : Option String) : Option String :=
  match a with
  | some s => if s = "" then b else some s
  | none => b

/-- Python truthiness of an optional string. -/
def pyTruthy : Option String → Bool
  | some s => s ≠ ""
  | none => false

/-- Embedding of `auth._extract_tokens` (`src/jike/auth.py` lines 64-85): resolve the
access and the refresh value each through the chain
body primary / body alternate / response header (Python `or`, so empty
strings fall through), and build a pair only when both are truthy. -/
def extract_tokens (resp : HttpResponse) : Option TokenPair :=
  let body := resp.parsed
  let access :=
    pyOr (pyOr (body.lookup "x-jike-access-token") (body.lookup "access_token"))
      (resp.getHeader "x-jike-access-token")
  let refresh :=
    pyOr (pyOr (body.lookup "x-jike-refresh-token") (body.lookup "refresh_token"))
      (resp.getHeader "x-jike-refresh-token")
  if pyTruthy access && pyTruthy refresh then
    some { access_token := access.getD "", refresh_token := refresh.getD "" }
  else
    none

/-- The claim's literal reading of token extraction: take the first value
PRESENT in the chain (a present empty string counts), and return a pair
iff both lookups found a value. -/
def extract_tokens_firstPresent (resp : HttpResponse) : Option TokenPair :=
  let body := resp.parsed
  let access :=
    ((body.lookup "x-jike-access-token").orElse fun _ =>
      (body.lookup "access_token").orElse fun _ =>
        resp.getHeader "x-jike-access-token")
  let refresh :=
    ((body.lookup "x-jike-refresh-token").orElse fun _ =>
      (body.lookup "refresh_token").orElse fun _ =>
        resp.getHeader "x-jike-refresh-token")
  match access, refresh with
  | some a, some r => some { access_token := a, refresh_token := r }
  | _, _ => none

/-- First truthy (present and non-empty) value of a chain of sources. -/
def firstTruthy : List (Option String) → Option String
  | [] => none
  | x :: rest =>
    match x with
    | some s => if s = "" then firstTruthy rest else some s
    | none => firstTruthy rest

/-- The amended reading of token extraction: first non-empty value of the
source chain for each token independently; a pair iff both tokens
resolved to a non-empty value. -/
def extract_tokens_firstNonEmpty (resp : HttpResponse) : Option TokenPair :=
  let body := resp.parsed
  let access := firstTruthy
    [ body.lookup "x-jike-access-token", body.lookup "access_token",
      resp.getHeader "x-jike-access-token" ]
  let refresh := firstTruthy
    [ body.lookup "x-jike-refresh-token", body.lookup "refresh_token",
      resp.getHeader "x-jike-refresh-token" ]
  if access.isSome && refresh.isSome then
    some { access_token := access.getD "", refresh_token := refresh.getD "" }
  else
    none

/-- Constant `auth.POLL_INTERVAL_SEC`. -/
def POLL_INTERVAL_SEC : Nat := 1

/-- Constant `auth.POLL_TIMEOUT_SEC`. -/
def POLL_TIMEOUT_SEC : Nat := 180

/-- One poll attempt's outcome at the transport layer: either the `_get`
raised a `requests.RequestException`, or it returned a response. -/
inductive PollStep where
  | netError
  | response (r : HttpResponse)
deriving Repr

/-- The loop body of `auth.poll_confirmation` (`src/jike/auth.py` lines
88-108): `fuel` remaining iterations of `range(attempts)`, `n` requests
issued so far.  Network errors, status 400 and any other non-200 status
all sleep and continue; a 200 returns `_extract_tokens` (possibly
`None`).  Returns the result and the total number of requests issued. -/
def pollAux (get : Nat → PollStep) : Nat → Nat → Option TokenPair × Nat
  | 0, n => (none, n)
  | fuel + 1, n =>
    match get n with
    | PollStep.netError => pollAux get fuel (n + 1)
    | PollStep.response r =>
      if r.status = 200 then (extract_tokens r, n + 1)
      else pollAux get fuel (n + 1)

/-- Embedding of `auth.poll_confirmation`: `attempts = POLL_TIMEOUT_SEC //
POLL_INTERVAL_SEC` iterations of the loop body. -/
def poll_confirmation (get : Nat → PollStep) : Option TokenPair × Nat :=
  pollAux get (POLL_TIMEOUT_SEC / POLL_INTERVAL_SEC) 0

/-! ### Python dataclass semantics for `TokenPair` (`types.py`) -/

/-- The fields of the `TokenPair` dataclass. -/
inductive TokenField where
  | access_token
  | refresh_token
deriving DecidableEq, Repr

/-- Flag recording that `TokenPair` is declared `@dataclass(frozen=True)`. -/
def TokenPair.frozen : Bool := true

/-- Error raised by attribute assignment on a dataclass instance. -/
inductive DataclassError where
  | frozenInstanceError
deriving DecidableEq, Repr

/-- Python attribute assignment `tp.<field> = v`: a frozen dataclass
raises `FrozenInstanceError`; an unfrozen one would update the field. -/
def TokenPair.setattr (tp : TokenPair) (f : TokenField) (v : String) :
    Except DataclassError TokenPair :=
  if TokenPair.frozen then
    Except.error DataclassError.frozenInstanceError
  else
    match f with
    | TokenField.access_token => Except.ok { tp with access_token := v }
    | TokenField.refresh_token => Except.ok { tp with refresh_token := v }

/-- Python dataclass `__eq__`: comparison of the field tuples. -/
def TokenPair.pyEq (a b : TokenPair) : Bool :=
  a.access_token == b.access_token && a.refresh_token == b.refresh_token

/-- Python dataclass `__hash__`: the hash of the field tuple. -/
def TokenPair.pyHash (tp : TokenPair) : UInt64 :=
  hash (tp.access_token, tp.refresh_token)

/-! ### Concrete fixtures for witnesses and counterexamples -/

/-- A successful response with a JSON body. -/
def resp200 : HttpResponse :=
  { status := 200, content := true, json := [("data", "feed")], headers := [] }

/-- An authentication-failure response. -/
def resp401 : HttpResponse :=
  { status := 401, content := false, json := [], headers := [] }

/-- A server-error response. -/
def resp500 : HttpResponse :=
  { status := 500, content := false, json := [], headers := [] }

/-- A successful refresh response renewing both tokens via headers. -/
def respRefreshOk : HttpResponse :=
  { status := 200, content := false, json := [],
    headers := [("x-jike-access-token", "a2"), ("x-jike-refresh-token", "r2")] }

/-- A successful refresh response exposing only a new access token. -/
def respOnlyAccess : HttpResponse :=
  { status := 200, content := false, json := [],
    headers := [("x-jike-access-token", "a2")] }

/-- A successful refresh response exposing no token headers at all. -/
def respNoTokenHeaders : HttpResponse :=
  { status := 200, content := false, json := [], headers := [] }

/-- A client state holding the prior pair `TokenPair("a1", "r1")`. -/
def st0 : ClientState :=
  { tokens := { access_token := "a1", refresh_token := "r1" } }

/-- Server schedule: first request 401, retry succeeds, refresh succeeds. -/
def env401Ok : Env :=
  { serve := fun n => if n = 0 then resp401 else resp200,
    refreshResp := respRefreshOk }

/-- Server schedule: every request 401, refresh succeeds. -/
def env401Twice : Env :=
  { serve := fun _ => resp401, refreshResp := respRefreshOk }

/-- Server schedule: every request 500. -/
def env500 : Env :=
  { serve := fun _ => resp500, refreshResp := respRefreshOk }

/-- Server schedule: first request 401, refresh endpoint fails with 500. -/
def env401RefreshFail : Env :=
  { serve := fun _ => resp401, refreshResp := resp500 }

/-! ### Theorems -/

/-- C9: if the refresh endpoint responds with an error status,
`JikeClient._refresh` raises that error before the assignment to the
token store, so the client's `TokenPair` is left exactly as it was. -/
theorem refresh_error_preserves_tokens (st : ClientState) (resp : HttpResponse)
    (h : isErrorStatus resp.status = true) :
    JikeClient_refresh st resp = (Except.error (HttpError.status resp.status), st) := by
  simp [JikeClient_refresh, h]

/-- Witness for C9 at the concrete 500 refresh response and state `st0`. -/
theorem refresh_error_preserves_tokens_witness :
    isErrorStatus resp500.status = true ∧
    JikeClient_refresh st0 resp500 = (Except.error (HttpError.status resp500.status), st0) :=
  ⟨by decide, refresh_error_preserves_tokens st0 resp500 (by decide)⟩

/-- C10: given the same prior pair and the same refresh response,
`auth.refresh_tokens` and `JikeClient._refresh` compute the same
resulting `TokenPair` (and fail with the same error). -/
theorem refresh_tokens_equiv_client_refresh (tp : TokenPair) (resp : HttpResponse) :
    refresh_tokens tp resp =
      (match JikeClient_refresh { tokens := tp } resp with
        | (Except.error e, _) => Except.error e
        | (Except.ok _, st') => Except.ok st'.tokens) := by
  by_cases h : isErrorStatus resp.status <;>
    simp [refresh_tokens, JikeClient_refresh, h]

/-- C3: a response with any error status other than 401 is raised
immediately: one request issued, no refresh call, state unchanged. -/
theorem request_non401_error_no_retry (env : Env) (method path : String)
    (kwargs : JsonBody) (st : ClientState)
    (h1 : isErrorStatus (env.serve 0).status = true)
    (h2 : (env.serve 0).status ≠ 401) :
    JikeClient_request env method path kwargs true st =
      (Except.error (HttpError.status (env.serve 0).status), st,
        [Event.req method path st.headersOf kwargs]) ∧
    countRequests (JikeClient_request env method path kwargs true st).2.2 = 1 ∧
    countRefreshCalls (JikeClient_request env method path kwargs true st).2.2 = 0 := by
  have hmain : JikeClient_request env method path kwargs true st =
      (Except.error (HttpError.status (env.serve 0).status), st,
        [Event.req method path st.headersOf kwargs]) := by
    simp [JikeClient_request, h1, h2]
  refine ⟨hmain, ?_, ?_⟩ <;>
    simp [hmain, countRequests, countRefreshCalls]

/-- Witness for C3: a 500 response on the first attempt. -/
theorem request_non401_error_no_retry_witness :
    (isErrorStatus (env500.serve 0).status = true ∧ (env500.serve 0).status ≠ 401) ∧
    (JikeClient_request env500 "GET" "/1.0/notifications/unread" [] true st0 =
      (Except.error (HttpError.status (env500.serve 0).status), st0,
        [Event.req "GET" "/1.0/notifications/unread" st0.headersOf []]) ∧
     countRequests (JikeClient_request env500 "GET" "/1.0/notifications/unread" [] true st0).2.2 = 1 ∧
     countRefreshCalls (JikeClient_request env500 "GET" "/1.0/notifications/unread" [] true st0).2.2 = 0) :=
  ⟨⟨by decide, by decide⟩,
    request_non401_error_no_retry env500 "GET" "/1.0/notifications/unread" [] st0
      (by decide) (by decide)⟩

/-- C7: when the first response is 401 and the refresh endpoint fails,
the refresh error is propagated to the caller, the original request is
not retried (one request event only), and the state is unchanged. -/
theorem refresh_failure_propagates (env : Env) (method path : String)
    (kwargs : JsonBody) (st : ClientState)
    (h1 : (env.serve 0).status = 401)
    (h2 : isErrorStatus env.refreshResp.status = true) :
    JikeClient_request env method path kwargs true st =
      (Except.error (HttpError.status env.refreshResp.status), st,
        [Event.req method path st.headersOf kwargs,
         Event.refreshCall st.tokens.refresh_token]) ∧
    countRequests (JikeClient_request env method path kwargs true st).2.2 = 1 ∧
    countRefreshCalls (JikeClient_request env method path kwargs true st).2.2 = 1 := by
  have hrf : JikeClient_refresh st env.refreshResp =
      (Except.error (HttpError.status env.refreshResp.status), st) := by
    simp [JikeClient_refresh, h2]
  have hmain : JikeClient_request env method path kwargs true st =
      (Except.error (HttpError.status env.refreshResp.status), st,
        [Event.req method path st.headersOf kwargs,
         Event.refreshCall st.tokens.refresh_token]) := by
    simp [JikeClient_request, h1, hrf]
  refine ⟨hmain, ?_, ?_⟩ <;>
    simp [hmain, countRequests, countRefreshCalls]

/-- Witness for C7: first response 401, refresh endpoint answers 500. -/
theorem refresh_failure_propagates_witness :
    ((env401RefreshFail.serve 0).status = 401 ∧
      isErrorStatus env401RefreshFail.refreshResp.status = true) ∧
    (JikeClient_request env401RefreshFail "POST" "/1.0/search/integrate" [("keyword", "x")] true st0 =
      (Except.error (HttpError.status env401RefreshFail.refreshResp.status), st0,
        [Event.req "POST" "/1.0/search/integrate" st0.headersOf [("keyword", "x")],
         Event.refreshCall st0.tokens.refresh_token]) ∧
     countRequests (JikeClient_request env401RefreshFail "POST" "/1.0/search/integrate"
        [("keyword", "x")] true st0).2.2 = 1 ∧
     countRefreshCalls (JikeClient_request env401RefreshFail "POST" "/1.0/search/integrate"
        [("keyword", "x")] true st0).2.2 = 1) :=
  ⟨⟨by decide, by decide⟩,
    refresh_failure_propagates env401RefreshFail "POST" "/1.0/search/integrate"
      [("keyword", "x")] st0 (by decide) (by decide)⟩

/-- C1: a 401 first response followed by a successful refresh and a
successful retry yields exactly one refresh call, a reissued request
with the same method, path and body carrying the new access token, and
the second response's parsed body as result. -/
theorem request_retry_after_401 (env : Env) (method path : String)
    (kwargs : JsonBody) (st : ClientState)
    (h1 : (env.serve 0).status = 401)
    (h2 : isErrorStatus env.refreshResp.status = false)
    (h3 : isErrorStatus (env.serve 1).status = false) :
    JikeClient_request env method path kwargs true st =
      (Except.ok (env.serve 1).parsed,
        (JikeClient_refresh st env.refreshResp).2,
        [Event.req method path st.headersOf kwargs,
         Event.refreshCall st.tokens.refresh_token,
         Event.req method path (JikeClient_refresh st env.refreshResp).2.headersOf kwargs]) ∧
    countRequests (JikeClient_request env method path kwargs true st).2.2 = 2 ∧
    countRefreshCalls (JikeClient_request env method path kwargs true st).2.2 = 1 ∧
    ((JikeClient_refresh st env.refreshResp).2.headersOf).lookup "x-jike-access-token" =
      some ((env.refreshResp.getHeader "x-jike-access-token").getD st.tokens.access_token) := by
  have hrf : JikeClient_refresh st env.refreshResp =
      (Except.ok (),
        { tokens :=
            { access_token :=
                (env.refreshResp.getHeader "x-jike-access-token").getD st.tokens.access_token,
              refresh_token :=
                (env.refreshResp.getHeader "x-jike-refresh-token").getD st.tokens.refresh_token } }) := by
    simp [JikeClient_refresh, h2]
  have hmain : JikeClient_request env method path kwargs true st =
      (Except.ok (env.serve 1).parsed,
        (JikeClient_refresh st env.refreshResp).2,
        [Event.req method path st.headersOf kwargs,
         Event.refreshCall st.tokens.refresh_token,
         Event.req method path (JikeClient_refresh st env.refreshResp).2.headersOf kwargs]) := by
    simp [JikeClient_request, requestNoRetry, h1, h3, hrf]
  refine ⟨hmain, ?_, ?_, ?_⟩
  · simp [hmain, countRequests]
  · simp [hmain, countRefreshCalls]
  · simp [hrf, ClientState.headersOf, DEFAULT_HEADERS, List.lookup]

/-- Witness for C1 with the prior pair `("a1", "r1")`, a refresh response
renewing both tokens, and a successful retry. -/
theorem request_retry_after_401_witness :
    ((env401Ok.serve 0).status = 401 ∧
      isErrorStatus env401Ok.refreshResp.status = false ∧
      isErrorStatus (env401Ok.serve 1).status = false) ∧
    (JikeClient_request env401Ok "POST" "/1.0/personalUpdate/followingUpdates"
        [("limit", "20")] true st0 =
      (Except.ok (env401Ok.serve 1).parsed,
        (JikeClient_refresh st0 env401Ok.refreshResp).2,
        [Event.req "POST" "/1.0/personalUpdate/followingUpdates" st0.headersOf [("limit", "20")],
         Event.refreshCall st0.tokens.refresh_token,
         Event.req "POST" "/1.0/personalUpdate/followingUpdates"
           (JikeClient_refresh st0 env401Ok.refreshResp).2.headersOf [("limit", "20")]]) ∧
     countRequests (JikeClient_request env401Ok "POST" "/1.0/personalUpdate/followingUpdates"
        [("limit", "20")] true st0).2.2 = 2 ∧
     countRefreshCalls (JikeClient_request env401Ok "POST" "/1.0/personalUpdate/followingUpdates"
        [("limit", "20")] true st0).2.2 = 1 ∧
     ((JikeClient_refresh st0 env401Ok.refreshResp).2.headersOf).lookup "x-jike-access-token" =
       some ((env401Ok.refreshResp.getHeader "x-jike-access-token").getD st0.tokens.access_token)) :=
  ⟨⟨by decide, by decide, by decide⟩,
    request_retry_after_401 env401Ok "POST" "/1.0/personalUpdate/followingUpdates"
      [("limit", "20")] st0 (by decide) (by decide) (by decide)⟩

/-- C2: a 401 first response followed by a successful refresh and a 401
retry raises the authentication error, with exactly two requests to the
original endpoint and exactly one refresh call. -/
theorem request_401_twice_raises (env : Env) (method path : String)
    (kwargs : JsonBody) (st : ClientState)
    (h1 : (env.serve 0).status = 401)
    (h2 : isErrorStatus env.refreshResp.status = false)
    (h3 : (env.serve 1).status = 401) :
    JikeClient_request env method path kwargs true st =
      (Except.error (HttpError.status 401),
        (JikeClient_refresh st env.refreshResp).2,
        [Event.req method path st.headersOf kwargs,
         Event.refreshCall st.tokens.refresh_token,
         Event.req method path (JikeClient_refresh st env.refreshResp).2.headersOf kwargs]) ∧
    countRequests (JikeClient_request env method path kwargs true st).2.2 = 2 ∧
    countRefreshCalls (JikeClient_request env method path kwargs true st).2.2 = 1 := by
  have hrf : JikeClient_refresh st env.refreshResp =
      (Except.ok (),
        { tokens :=
            { access_token :=
                (env.refreshResp.getHeader "x-jike-access-token").getD st.tokens.access_token,
              refresh_token :=
                (env.refreshResp.getHeader "x-jike-refresh-token").getD st.tokens.refresh_token } }) := by
    simp [JikeClient_refresh, h2]
  have herr : isErrorStatus 401 = true := by decide
  have hmain : JikeClient_request env method path kwargs true st =
      (Except.error (HttpError.status 401),
        (JikeClient_refresh st env.refreshResp).2,
        [Event.req method path st.headersOf kwargs,
         Event.refreshCall st.tokens.refresh_token,
         Event.req method path (JikeClient_refresh st env.refreshResp).2.headersOf kwargs]) := by
    simp [JikeClient_request, requestNoRetry, h1, h3, herr, hrf]
  refine ⟨hmain, ?_, ?_⟩ <;>
    simp [hmain, countRequests, countRefreshCalls]

/-- Witness for C2: the server answers 401 to every request while the
refresh endpoint succeeds. -/
theorem request_401_twice_raises_witness :
    ((env401Twice.serve 0).status = 401 ∧
      isErrorStatus env401Twice.refreshResp.status = false ∧
      (env401Twice.serve 1).status = 401) ∧
    (JikeClient_request env401Twice "GET" "/1.0/users/profile" [] true st0 =
      (Except.error (HttpError.status 401),
        (JikeClient_refresh st0 env401Twice.refreshResp).2,
        [Event.req "GET" "/1.0/users/profile" st0.headersOf [],
         Event.refreshCall st0.tokens.refresh_token,
         Event.req "GET" "/1.0/users/profile"
           (JikeClient_refresh st0 env401Twice.refreshResp).2.headersOf []]) ∧
     countRequests (JikeClient_request env401Twice "GET" "/1.0/users/profile" [] true st0).2.2 = 2 ∧
     countRefreshCalls (JikeClient_request env401Twice "GET" "/1.0/users/profile" [] true st0).2.2 = 1) :=
  ⟨⟨by decide, by decide, by decide⟩,
    request_401_twice_raises env401Twice "GET" "/1.0/users/profile" [] st0
      (by decide) (by decide) (by decide)⟩

/-- C4 counterexample: the standalone `scripts/client.py` `_refresh`,
refreshing the prior pair `("a1", "r1")` with a successful response that
lacks the access-token header, returns `""` as access token instead of
carrying over the prior `"a1"`. -/
theorem scripts_refresh_drops_prior_access :
    scripts_refresh "r1" respNoTokenHeaders = Except.ok ("", "r1") ∧
    ("" : String) ≠ "a1" :=
  ⟨rfl, by decide⟩

/-- C4 amended: in `JikeClient._refresh` and `auth.refresh_tokens` each
token field whose header is absent from a successful refresh response
is carried over unchanged, and the spec's example holds; the standalone
`scripts/client.py` `_refresh` carries over only the refresh token and
yields the empty string for an absent access-token header. -/
theorem refresh_absent_header_carryover (st : ClientState) (tp : TokenPair)
    (resp : HttpResponse)
    (hok : isErrorStatus resp.status = false) :
    (resp.getHeader "x-jike-access-token" = none →
       (JikeClient_refresh st resp).2.tokens.access_token = st.tokens.access_token ∧
       refresh_tokens tp resp = Except.ok
         { access_token := tp.access_token,
           refresh_token := (resp.getHeader "x-jike-refresh-token").getD tp.refresh_token }) ∧
    (resp.getHeader "x-jike-refresh-token" = none →
       (JikeClient_refresh st resp).2.tokens.refresh_token = st.tokens.refresh_token ∧
       refresh_tokens tp resp = Except.ok
         { access_token := (resp.getHeader "x-jike-access-token").getD tp.access_token,
           refresh_token := tp.refresh_token } ∧
       scripts_refresh tp.refresh_token resp =
         Except.ok ((resp.getHeader "x-jike-access-token").getD "", tp.refresh_token)) ∧
    refresh_tokens { access_token := "a1", refresh_token := "r1" } respOnlyAccess =
      Except.ok { access_token := "a2", refresh_token := "r1" } ∧
    JikeClient_refresh st0 respOnlyAccess =
      (Except.ok (), { tokens := { access_token := "a2", refresh_token := "r1" } }) := by
  refine ⟨?_, ?_, rfl, rfl⟩
  · intro ha
    simp [JikeClient_refresh, refresh_tokens, scripts_refresh, hok, ha]
  · intro hr
    simp [JikeClient_refresh, refresh_tokens, scripts_refresh, hok, hr]

/-- Witness for the amended C4 at a successful refresh response with no
token headers and the prior pair `("a1", "r1")`. -/
theorem refresh_absent_header_carryover_witness :
    isErrorStatus respNoTokenHeaders.status = false ∧
    ((respNoTokenHeaders.getHeader "x-jike-access-token" = none →
       (JikeClient_refresh st0 respNoTokenHeaders).2.tokens.access_token = st0.tokens.access_token ∧
       refresh_tokens st0.tokens respNoTokenHeaders = Except.ok
         { access_token := st0.tokens.access_token,
           refresh_token :=
             (respNoTokenHeaders.getHeader "x-jike-refresh-token").getD st0.tokens.refresh_token }) ∧
     (respNoTokenHeaders.getHeader "x-jike-refresh-token" = none →
       (JikeClient_refresh st0 respNoTokenHeaders).2.tokens.refresh_token = st0.tokens.refresh_token ∧
       refresh_tokens st0.tokens respNoTokenHeaders = Except.ok
         { access_token :=
             (respNoTokenHeaders.getHeader "x-jike-access-token").getD st0.tokens.access_token,
           refresh_token := st0.tokens.refresh_token } ∧
       scripts_refresh st0.tokens.refresh_token respNoTokenHeaders =
         Except.ok ((respNoTokenHeaders.getHeader "x-jike-access-token").getD "",
           st0.tokens.refresh_token)) ∧
     refresh_tokens { access_token := "a1", refresh_token := "r1" } respOnlyAccess =
       Except.ok { access_token := "a2", refresh_token := "r1" } ∧
     JikeClient_refresh st0 respOnlyAccess =
       (Except.ok (), { tokens := { access_token := "a2", refresh_token := "r1" } })) :=
  ⟨by decide, refresh_absent_header_carryover st0 st0.tokens respNoTokenHeaders (by decide)⟩

/-- C5 counterexample: with a body whose primary access field is present
but empty and a header access value `"ha"`, `_extract_tokens` skips the
present empty value (Python `or` treats `""` as falsy) and returns the
header value, while the claim's literal first-present reading would
take the empty body field. -/
theorem extract_tokens_skips_present_empty :
    extract_tokens
        { status := 200, content := true,
          json := [("x-jike-access-token", ""), ("x-jike-refresh-token", "r1")],
          headers := [("x-jike-access-token", "ha")] } =
      some { access_token := "ha", refresh_token := "r1" } ∧
    extract_tokens_firstPresent
        { status := 200, content := true,
          json := [("x-jike-access-token", ""), ("x-jike-refresh-token", "r1")],
          headers := [("x-jike-access-token", "ha")] } =
      some { access_token := "", refresh_token := "r1" } ∧
    some ({ access_token := "ha", refresh_token := "r1" } : TokenPair) ≠
      some ({ access_token := "", refresh_token := "r1" } : TokenPair) := by
  decide

/-- Helper: truthiness of a Python `or` chain of three sources agrees
with presence of a first truthy element (the chains differ only when
every source is falsy, where the `or` chain keeps the last falsy
operand). -/
theorem pyOr_chain_truthy (a b c : Option String) :
    pyTruthy (pyOr (pyOr a b) c) = (firstTruthy [a, b, c]).isSome := by
  cases a with
  | none =>
    cases b with
    | none =>
      cases c with
      | none => simp [pyOr, pyTruthy, firstTruthy]
      | some u => by_cases hu : u = "" <;> simp [pyOr, pyTruthy, firstTruthy, hu]
    | some t =>
      by_cases ht : t = ""
      · cases c with
        | none => simp [pyOr, pyTruthy, firstTruthy, ht]
        | some u => by_cases hu : u = "" <;> simp [pyOr, pyTruthy, firstTruthy, ht, hu]
      · simp [pyOr, pyTruthy, firstTruthy, ht]
  | some s =>
    by_cases hs : s = ""
    · cases b with
      | none =>
        cases c with
        | none => simp [pyOr, pyTruthy, firstTruthy, hs]
        | some u => by_cases hu : u = "" <;> simp [pyOr, pyTruthy, firstTruthy, hs, hu]
      | some t =>
        by_cases ht : t = ""
        · cases c with
          | none => simp [pyOr, pyTruthy, firstTruthy, hs, ht]
          | some u =>
            by_cases hu : u = "" <;> simp [pyOr, pyTruthy, firstTruthy, hs, ht, hu]
        · simp [pyOr, pyTruthy, firstTruthy, hs, ht]
    · simp [pyOr, pyTruthy, firstTruthy, hs]

/-- Helper: when a Python `or` chain of three sources is truthy, it
equals the first truthy element of the sources. -/
theorem pyOr_chain_val (a b c : Option String)
    (h : pyTruthy (pyOr (pyOr a b) c) = true) :
    pyOr (pyOr a b) c = firstTruthy [a, b, c] := by
  cases a with
  | none =>
    cases b with
    | none =>
      cases c with
      | none => simp [pyOr, firstTruthy]
      | some u =>
        have hu : u ≠ "" := by simpa [pyOr, pyTruthy] using h
        simp [pyOr, firstTruthy, hu]
    | some t =>
      by_cases ht : t = ""
      · cases c with
        | none => simp [pyOr, pyTruthy, ht] at h
        | some u =>
          have hu : u ≠ "" := by simpa [pyOr, pyTruthy, ht] using h
          simp [pyOr, firstTruthy, ht, hu]
      · simp [pyOr, firstTruthy, ht]
  | some s =>
    by_cases hs : s = ""
    · cases b with
      | none =>
        cases c with
        | none => simp [pyOr, pyTruthy, hs] at h
        | some u =>
          have hu : u ≠ "" := by simpa [pyOr, pyTruthy, hs] using h
          simp [pyOr, firstTruthy, hs, hu]
      | some t =>
        by_cases ht : t = ""
        · cases c with
          | none => simp [pyOr, pyTruthy, hs, ht] at h
          | some u =>
            have hu : u ≠ "" := by simpa [pyOr, pyTruthy, hs, ht] using h
            simp [pyOr, firstTruthy, hs, ht, hu]
        · simp [pyOr, firstTruthy, hs, ht]
    · simp [pyOr, firstTruthy, hs]

/-- Helper: packing two resolved token values under Python truthiness
agrees with packing under presence, when truthiness of each resolved
value tracks presence of its counterpart and truthy values coincide. -/
theorem pack_eq_general (x y A R : Option String)
    (hxa : pyTruthy x = A.isSome) (hyr : pyTruthy y = R.isSome)
    (hxv : pyTruthy x = true → x = A) (hyv : pyTruthy y = true → y = R) :
    (if pyTruthy x && pyTruthy y then
        some ({ access_token := x.getD "", refresh_token := y.getD "" } : TokenPair)
      else none) =
      (if A.isSome && R.isSome then
        some ({ access_token := A.getD "", refresh_token := R.getD "" } : TokenPair)
      else none) := by
  by_cases hA : A.isSome = true <;> by_cases hR : R.isSome = true
  · have hx : pyTruthy x = true := by rw [hxa]; exact hA
    have hy : pyTruthy y = true := by rw [hyr]; exact hR
    rw [hxa, hyr, hxv hx, hyv hy]
  · simp [hxa, hyr, hA, hR]
  · simp [hxa, hyr, hA, hR]
  · simp [hxa, hyr, hA, hR]

/-- C5 amended: token extraction resolves each token to the first
non-empty value of the chain body primary / body alternate / header (a
present empty string is skipped), independently per token, and returns
a pair exactly when both tokens resolved to a non-empty value. -/
theorem extract_tokens_eq_firstNonEmpty (resp : HttpResponse) :
    extract_tokens resp = extract_tokens_firstNonEmpty resp := by
  simp only [extract_tokens, extract_tokens_firstNonEmpty]
  exact pack_eq_general _ _ _ _
    (pyOr_chain_truthy _ _ _) (pyOr_chain_truthy _ _ _)
    (pyOr_chain_val _ _ _) (pyOr_chain_val _ _ _)

/-- Witness for the amended C5 at a response mixing sources: access from
the alternate body field, refresh from the header. -/
theorem extract_tokens_eq_firstNonEmpty_witness :
    extract_tokens
        { status := 200, content := true, json := [("access_token", "am")],
          headers := [("x-jike-refresh-token", "rm")] } =
      extract_tokens_firstNonEmpty
        { status := 200, content := true, json := [("access_token", "am")],
          headers := [("x-jike-refresh-token", "rm")] } :=
  extract_tokens_eq_firstNonEmpty
    { status := 200, content := true, json := [("access_token", "am")],
      headers := [("x-jike-refresh-token", "rm")] }

/-- Helper: a poll loop in which every attempt yields a 400 response
consumes all its fuel, issuing one request per iteration. -/
theorem pollAux_all_400 (get : Nat → PollStep)
    (h : ∀ n, ∃ r, get n = PollStep.response r ∧ r.status = 400) :
    ∀ fuel n, pollAux get fuel n = (none, n + fuel) := by
  intro fuel
  induction fuel with
  | zero => intro n; simp [pollAux]
  | succ k ih =>
    intro n
    obtain ⟨r, hg, hs⟩ := h n
    have h200 : r.status ≠ 200 := by rw [hs]; decide
    rw [pollAux, hg]
    simp only [h200, if_false, ite_false, if_neg h200]
    rw [ih (n + 1)]
    congr 1
    omega

/-- C6: a poll loop in which every attempt yields HTTP 400 terminates
with no result after issuing exactly `attempts`-count requests, where
`attempts = POLL_TIMEOUT_SEC // POLL_INTERVAL_SEC = 180 / 1 = 180`. -/
theorem poll_all_400_times_out (get : Nat → PollStep)
    (h : ∀ n, ∃ r, get n = PollStep.response r ∧ r.status = 400) :
    poll_confirmation get = (none, POLL_TIMEOUT_SEC / POLL_INTERVAL_SEC) ∧
    POLL_TIMEOUT_SEC / POLL_INTERVAL_SEC = 180 ∧
    POLL_TIMEOUT_SEC = 180 ∧ POLL_INTERVAL_SEC = 1 := by
  refine ⟨?_, by decide, by decide, by decide⟩
  have := pollAux_all_400 get h (POLL_TIMEOUT_SEC / POLL_INTERVAL_SEC) 0
  simpa [poll_confirmation] using this

/-- A 400 "not yet confirmed" poll response. -/
def resp400 : HttpResponse :=
  { status := 400, content := false, json := [], headers := [] }

/-- A server that answers every poll attempt with 400. -/
def get400 : Nat → PollStep := fun _ => PollStep.response resp400

/-- Witness for C6 at the concrete all-400 poll schedule. -/
theorem poll_all_400_times_out_witness :
    (∀ n, ∃ r, get400 n = PollStep.response r ∧ r.status = 400) ∧
    (poll_confirmation get400 = (none, POLL_TIMEOUT_SEC / POLL_INTERVAL_SEC) ∧
     POLL_TIMEOUT_SEC / POLL_INTERVAL_SEC = 180 ∧
     POLL_TIMEOUT_SEC = 180 ∧ POLL_INTERVAL_SEC = 1) :=
  ⟨fun _ => ⟨resp400, rfl, rfl⟩,
    poll_all_400_times_out get400 (fun _ => ⟨resp400, rfl, rfl⟩)⟩

/-- C8: `TokenPair` is an immutable value object: attribute assignment
on an instance raises `FrozenInstanceError`; equality and hashing are
by field values; a successful refresh replaces the client's pair with a
newly constructed pair (an error status leaves it untouched). -/
theorem tokenPair_immutable_value_object :
    (∀ (tp : TokenPair) (f : TokenField) (v : String),
        TokenPair.setattr tp f v = Except.error DataclassError.frozenInstanceError) ∧
    (∀ a b : TokenPair, TokenPair.pyEq a b = true ↔ a = b) ∧
    (∀ a b : TokenPair, a = b → TokenPair.pyHash a = TokenPair.pyHash b) ∧
    (∀ (st : ClientState) (resp : HttpResponse),
        (JikeClient_refresh st resp).2.tokens =
          if isErrorStatus resp.status then st.tokens
          else
            { access_token :=
                (resp.getHeader "x-jike-access-token").getD st.tokens.access_token,
              refresh_token :=
                (resp.getHeader "x-jike-refresh-token").getD st.tokens.refresh_token }) := by
  refine ⟨?_, ?_, ?_, ?_⟩
  · intro tp f v
    simp [TokenPair.setattr, TokenPair.frozen]
  · intro a b
    cases a; cases b
    simp [TokenPair.pyEq, TokenPair.mk.injEq, Bool.and_eq_true, beq_iff_eq]
  · intro a b hab
    rw [hab]
  · intro st resp
    by_cases h : isErrorStatus resp.status <;> simp [JikeClient_refresh, h]

/-- Witness for C8 at concrete pairs: assignment to `("a1", "r1")`
fails, value equality and hashing agree on equal fields, and the
concrete refresh `st0` with `respRefreshOk` installs the new pair. -/
theorem tokenPair_immutable_value_object_witness :
    TokenPair.setattr { access_token := "a1", refresh_token := "r1" }
        TokenField.access_token "evil" =
      Except.error DataclassError.frozenInstanceError ∧
    (TokenPair.pyEq { access_token := "a1", refresh_token := "r1" }
        { access_token := "a1", refresh_token := "r1" } = true ↔
      ({ access_token := "a1", refresh_token := "r1" } : TokenPair) =
        { access_token := "a1", refresh_token := "r1" }) ∧
    (JikeClient_refresh st0 respRefreshOk).2.tokens =
      (if isErrorStatus respRefreshOk.status then st0.tokens
        else
          { access_token :=
              (respRefreshOk.getHeader "x-jike-access-token").getD st0.tokens.access_token,
            refresh_token :=
              (respRefreshOk.getHeader "x-jike-refresh-token").getD st0.tokens.refresh_token }) :=
  ⟨tokenPair_immutable_value_object.1 { access_token := "a1", refresh_token := "r1" }
      TokenField.access_token "evil",
    tokenPair_immutable_value_object.2.1 _ _,
    tokenPair_immutable_value_object.2.2.2 st0 respRefreshOk⟩

end Jike
